import Mathlib

/-!
# Verification of the product-catalog query layer and listing controller

Shallow embedding of the storefront's catalog query layer
(`src/lib/supabase/products.ts`), its HTTP parameter parsing
(`src/app/api/products/route.ts`), and the incremental listing controller
(`components/ProductListPagination.tsx`), together with proofs of the
specification's claims about them.

The external Supabase query builder is modelled as a `Query` value built by
the same chain of calls the source makes, and a semantics `evalQuery` that
runs such a query against a list of rows (the supabase-js documented
behaviour: filters, one ORDER BY, an inclusive row range, an exact count of
filtered rows ignoring the range). The backend itself is an oracle
`Query → SupaResponse`, so that error responses and null payloads can be
injected; `evalQuery db` is the honest backend over table contents `db`.
-/

namespace Storefront

/-- One row of the `products` table, matching `types/product.ts`
(`src/unnamed/part_003`). `price` is modelled as `Int` (DECIMAL in the
store); `created_at`/`updated_at` are ISO timestamp strings, which order
chronologically under lexicographic comparison. -/
structure Product where
  id : String
  name : String
  description : Option String
  price : Int
  category : Option String
  stock_quantity : Nat
  is_active : Bool
  created_at : String
  updated_at : String
deriving DecidableEq, Repr

/-- `PaginatedProducts` from `src/lib/supabase/products.ts` lines 25-28. -/
structure PaginatedProducts where
  products : List Product
  total : Int
deriving DecidableEq, Repr

/-- An equality filter appended by one `.eq(column, value)` call of the
query builder, specialised to the three columns the source filters on. -/
inductive Filter where
  | isActiveEq (b : Bool)
  | categoryEq (c : String)
  | idEq (i : String)
deriving DecidableEq, Repr

/-- The state of a supabase-js query-builder chain: which filters were
added, the ORDER BY column and direction (`true` = ascending), the
inclusive row range from `.range(from, to)`, the row cap from `.limit(n)`,
and whether an exact count was requested. -/
structure Query where
  table : String
  filters : List Filter
  ordering : Option (String × Bool)
  rangeSpec : Option (Int × Int)
  limitSpec : Option Int
  countExact : Bool
deriving DecidableEq, Repr

/-- `supabase.from(table).select("*", ...)` — a fresh builder chain. -/
def Query.new (table : String) (countExact : Bool) : Query :=
  { table := table, filters := [], ordering := none, rangeSpec := none,
    limitSpec := none, countExact := countExact }

/-- `.eq(column, value)` — appends an equality filter. -/
def Query.eq (q : Query) (f : Filter) : Query :=
  { q with filters := q.filters ++ [f] }

/-- `.order(column, { ascending })`. -/
def Query.order (q : Query) (column : String) (ascending : Bool) : Query :=
  { q with ordering := some (column, ascending) }

/-- `.range(from, to)` — inclusive row range. -/
def Query.range (q : Query) (a b : Int) : Query :=
  { q with rangeSpec := some (a, b) }

/-- `.limit(n)`. -/
def Query.limit (q : Query) (n : Int) : Query :=
  { q with limitSpec := some n }

/-- A PostgREST error object as surfaced by supabase-js. -/
structure SupaError where
  code : String
  message : String
deriving DecidableEq, Repr

/-- The `{ data, error, count }` object produced by awaiting a multi-row
query. `data` and `count` are nullable in the JS client, hence `Option`. -/
structure SupaResponse where
  data : Option (List Product)
  error : Option SupaError
  count : Option Int
deriving DecidableEq, Repr

/-- The `{ data, error }` object produced by awaiting a `.single()` query. -/
structure SingleResponse where
  data : Option Product
  error : Option SupaError
deriving DecidableEq, Repr

/-- Whether a single equality filter accepts a row. -/
def applyFilter : Filter → Product → Bool
  | .isActiveEq b, p => p.is_active == b
  | .categoryEq c, p => p.category == some c
  | .idEq i, p => p.id == i

/-- A row passes a filter list iff it passes every filter (WHERE clause). -/
def matchesAll (fs : List Filter) (p : Product) : Bool :=
  fs.all (fun f => applyFilter f p)

/-- Lexicographic `≤` on character lists, by code point. -/
def lexLe : List Char → List Char → Bool
  | [], _ => true
  | _ :: _, [] => false
  | a :: as, b :: bs =>
      if a.toNat < b.toNat then true
      else if b.toNat < a.toNat then false
      else lexLe as bs

/-- Lexicographic `≤` on strings, by code point (the model of the store's
text ordering; ISO timestamps order chronologically under it). -/
def strLe (a b : String) : Bool := lexLe a.toList b.toList

/-- `≤` on the named column, for ascending order. -/
def colLe (column : String) (p q : Product) : Bool :=
  match column with
  | "price" => decide (p.price ≤ q.price)
  | "created_at" => strLe p.created_at q.created_at
  | "name" => strLe p.name q.name
  | _ => true

/-- Insert into a list sorted by `le`. -/
def insertLe (le : Product → Product → Bool) (p : Product) :
    List Product → List Product
  | [] => [p]
  | q :: qs => if le p q then p :: q :: qs else q :: insertLe le p qs

/-- Insertion sort by `le`. -/
def sortByLe (le : Product → Product → Bool) (l : List Product) : List Product :=
  l.foldr (insertLe le) []

/-- Apply the ORDER BY clause: sort ascending by the column, or by the
flipped comparison when descending; no clause leaves the rows as stored. -/
def sortRows (ordering : Option (String × Bool)) (rows : List Product) :
    List Product :=
  match ordering with
  | none => rows
  | some (column, ascending) =>
      sortByLe (fun p q =>
        if ascending then colLe column p q else colLe column q p) rows

/-- The inclusive row range `[a, b]` of a result list (PostgREST
`Range` header semantics of `.range(a, b)`). -/
def applyRange (a b : Int) (l : List Product) : List Product :=
  (l.drop a.toNat).take (b - a + 1).toNat

/-- Honest backend semantics: run a query against table contents `db`.
Filters, then ORDER BY, then the row range, then the row cap; the exact
count, when requested, counts the filtered rows ignoring range and cap. -/
def evalQuery (db : List Product) (q : Query) : SupaResponse :=
  let filtered := db.filter (matchesAll q.filters)
  let sorted := sortRows q.ordering filtered
  let ranged := match q.rangeSpec with
    | some (a, b) => applyRange a b sorted
    | none => sorted
  let limited := match q.limitSpec with
    | some n => ranged.take n.toNat
    | none => ranged
  { data := some limited
    error := none
    count := if q.countExact then some (filtered.length : Int) else none }

/-- JavaScript truthiness of a `string | undefined` value: `undefined` and
the empty string are falsy. -/
def strTruthy : Option String → Bool
  | none => false
  | some s => !(s == "")

/-- The user-facing error message thrown by the query functions
(`src/lib/supabase/products.ts`). -/
def errMsg : String := "상품을 불러오는 중 오류가 발생했습니다."

/-- Query built by `getProducts` (`src/lib/supabase/products.ts` lines
37-41): all rows with `is_active = true`, newest first. -/
def getProductsQ : Query :=
  ((Query.new "products" false).eq (.isActiveEq true)).order "created_at" false

/-- `getProducts` (`src/lib/supabase/products.ts` lines 34-49): issues
`getProductsQ` and, on a backend error, throws; otherwise returns
`data || []`. -/
def getProducts (backend : Query → SupaResponse) :
    Except String (List Product) :=
  let resp := backend getProductsQ
  match resp.error with
  | some _ => .error errMsg
  | none => .ok (resp.data.getD [])

/-- Query built by `getProductsByCategory` (lines 61-66). -/
def getProductsByCategoryQ (category : String) : Query :=
  (((Query.new "products" false).eq (.isActiveEq true)).eq
      (.categoryEq category)).order "created_at" false

/-- `getProductsByCategory` (lines 56-74). -/
def getProductsByCategory (backend : Query → SupaResponse)
    (category : String) : Except String (List Product) :=
  let resp := backend (getProductsByCategoryQ category)
  match resp.error with
  | some _ => .error errMsg
  | none => .ok (resp.data.getD [])

/-- Query built by `getFeaturedProducts` (lines 98-103). -/
def getFeaturedProductsQ (limit : Int) : Query :=
  (((Query.new "products" false).eq (.isActiveEq true)).order
      "created_at" false).limit limit

/-- The two environment variables `getFeaturedProducts` checks. -/
structure Env where
  supabaseUrl : Option String
  supabaseKey : Option String
deriving DecidableEq, Repr

/-- Awaiting the backend either yields a response or throws (network
failure, client construction failure, ...). -/
inductive QueryOutcome where
  | response (r : SupaResponse)
  | thrown (message : String)
deriving DecidableEq, Repr

/-- `getFeaturedProducts` (lines 81-143): inside a try/catch, returns `[]`
when either environment variable is missing or empty, `[]` when the backend
reports an error, `data || []` on success, and `[]` from the catch block on
any thrown exception. -/
def getFeaturedProducts (env : Env) (backend : Query → QueryOutcome)
    (limit : Int := 6) : Except String (List Product) :=
  if !(strTruthy env.supabaseUrl) || !(strTruthy env.supabaseKey) then
    .ok []
  else
    match backend (getFeaturedProductsQ limit) with
    | .thrown _ => .ok []
    | .response resp =>
        match resp.error with
        | some _ => .ok []
        | none => .ok (resp.data.getD [])

/-- Query built by `getProductsWithPagination` (lines 162-194): select with
exact count, `is_active = true`, the category filter when `category` is
truthy, the ORDER BY resolved by the `switch (sortBy)`, and the row range
`[offset, offset + limit - 1]`. `sortBy` is a plain string here because the
source's `default:` arm is reachable from the HTTP route's unchecked cast. -/
def getProductsWithPaginationQ (category : Option String) (sortBy : String)
    (limit : Int) (offset : Int) : Query :=
  let query := (Query.new "products" true).eq (.isActiveEq true)
  let query := if strTruthy category then
      query.eq (.categoryEq (category.getD "")) else query
  let query := match sortBy with
    | "price_asc" => query.order "price" true
    | "price_desc" => query.order "price" false
    | "newest" => query.order "created_at" false
    | "oldest" => query.order "created_at" true
    | "name_asc" => query.order "name" true
    | _ => query.order "created_at" false
  query.range offset (offset + limit - 1)

/-- `getProductsWithPagination` (lines 153-207): issues the query above; on
a backend error throws; otherwise returns
`{ products: data || [], total: count || 0 }`. -/
def getProductsWithPagination (backend : Query → SupaResponse)
    (category : Option String) (sortBy : String) (limit : Int := 12)
    (offset : Int := 0) : Except String PaginatedProducts :=
  let resp := backend (getProductsWithPaginationQ category sortBy limit offset)
  match resp.error with
  | some _ => .error errMsg
  | none => .ok { products := resp.data.getD [], total := resp.count.getD 0 }

/-- Query built by `getProductById` (lines 217-222); `.single()` is
reflected in the `SingleResponse` shape of the backend's answer. -/
def getProductByIdQ (id : String) : Query :=
  (((Query.new "products" false).eq (.idEq id)).eq (.isActiveEq true))

/-- `getProductById` (lines 214-234): on error code `PGRST116` (PostgREST's
"no/multiple rows for a single-object request") returns `null`; on any
other backend error throws; otherwise returns `data as Product`. -/
def getProductById (backendS : Query → SingleResponse) (id : String) :
    Except String (Option Product) :=
  let resp := backendS (getProductByIdQ id)
  match resp.error with
  | some e => if e.code == "PGRST116" then .ok none else .error errMsg
  | none => .ok resp.data

/-- Honest `.single()` backend over table contents `db`: exactly one
filtered row yields it as `data`; zero or several rows yield the
`PGRST116` error, as PostgREST does for a single-object request. -/
def pgrst116 : SupaError :=
  { code := "PGRST116",
    message := "JSON object requested, multiple (or no) rows returned" }

def evalSingle (db : List Product) (q : Query) : SingleResponse :=
  match db.filter (matchesAll q.filters) with
  | [p] => { data := some p, error := none }
  | _ => { data := none, error := some pgrst116 }

/-! ## HTTP parameter parsing (`src/app/api/products/route.ts`) -/

/-- Digit list to its base-10 value. -/
def digitsToNat (ds : List Char) : Nat :=
  ds.foldl (fun acc c => acc * 10 + (c.toNat - '0'.toNat)) 0

/-- The whitespace characters `parseInt` skips. -/
def jsWhitespace (c : Char) : Bool :=
  c == ' ' || c == '\t' || c == '\n' || c == '\r'

/-- JavaScript `parseInt(s, 10)`: skip leading whitespace, an optional
sign, then the maximal leading run of decimal digits; `NaN` (here `none`)
when that run is empty. -/
def jsParseInt (s : String) : Option Int :=
  let cs := s.toList.dropWhile jsWhitespace
  let signAndRest : Int × List Char :=
    match cs with
    | '-' :: r => (-1, r)
    | '+' :: r => (1, r)
    | r => (1, r)
  let ds := signAndRest.2.takeWhile Char.isDigit
  if ds.isEmpty then none
  else some (signAndRest.1 * (digitsToNat ds : Int))

/-- `searchParams.get(x) || d`: a missing (`null`) or empty parameter value
falls back to the default string `d`. -/
def getQueryDefault (v : Option String) (d : String) : String :=
  match v with
  | none => d
  | some s => if s == "" then d else s

/-- The route's `limit` computation (`route.ts` line 23):
`parseInt(searchParams.get("limit") || "12", 10)`; `none` is `NaN`. -/
def routeLimit (v : Option String) : Option Int :=
  jsParseInt (getQueryDefault v "12")

/-- The route's `offset` computation (`route.ts` line 24):
`parseInt(searchParams.get("offset") || "0", 10)`; `none` is `NaN`. -/
def routeOffset (v : Option String) : Option Int :=
  jsParseInt (getQueryDefault v "0")

/-! ## Incremental listing controller (`components/ProductListPagination.tsx`,
`src/unnamed/part_002` lines 62-175) -/

/-- The controller's state: the `products` and `limit` `useState` values,
the `isPending` transition flag, and the fixed props `total`, `category`,
`sortBy` of the component instance. -/
structure ListingState where
  products : List Product
  total : Nat
  category : Option String
  sortBy : String
  limit : Nat
  pending : Bool
deriving DecidableEq, Repr

/-- Component instantiation with the first page's results:
`products = initialProducts`, `limit = initialLimit`, not pending. -/
def initState (initialProducts : List Product) (total : Nat)
    (category : Option String) (sortBy : String) (initialLimit : Nat) :
    ListingState :=
  { products := initialProducts, total := total, category := category,
    sortBy := sortBy, limit := initialLimit, pending := false }

/-- `hasMore` (part_002 line 104): `products.length < total`. -/
def hasMore (s : ListingState) : Bool :=
  decide (s.products.length < s.total)

/-- The query-string parameters `loadMore` sends to `/api/products`. -/
structure PageRequest where
  category : Option String
  sortBy : String
  limit : Nat
  offset : Nat
deriving DecidableEq, Repr

/-- The request `loadMore` builds (part_002 lines 110-116): the context's
`category`/`sortBy`, `limit = limit + 12`, `offset = products.length`. -/
def loadMoreRequest (s : ListingState) : PageRequest :=
  { category := s.category, sortBy := s.sortBy,
    limit := s.limit + 12, offset := s.products.length }

/-- A user click on the load-more button. The button is only rendered when
`hasMore` (part_002 line 143) and is `disabled` while `isPending`
(line 147), so a click triggers `loadMore` — marking the state pending and
issuing its page request — exactly when `hasMore ∧ ¬pending`; otherwise
nothing happens and no request is issued. -/
def clickLoadMore (s : ListingState) : ListingState × Option PageRequest :=
  if hasMore s && !s.pending then
    ({ s with pending := true }, some (loadMoreRequest s))
  else (s, none)

/-- The awaited fetch either succeeds with a parsed `{products, total}`
body or fails (non-ok response or thrown error). -/
inductive LoadOutcome where
  | success (newProducts : List Product)
  | failure
deriving DecidableEq, Repr

/-- Completion of an in-flight `loadMore` (part_002 lines 118-130): on
success append `data.products` and advance `limit` by 12; on failure show
an `alert` (the returned flag) and change nothing else; either way the
transition ends, clearing `pending`. -/
def resolveLoad (s : ListingState) : LoadOutcome → ListingState × Bool
  | .success ps =>
      ({ s with products := s.products ++ ps, limit := s.limit + 12,
                pending := false }, false)
  | .failure => ({ s with pending := false }, true)

/-! ## Helper definitions for the theorems -/

/-- The spec's description of the pagination filter clause: always
`isActive == true`, plus category equality iff `category` is provided and
non-empty. Stated from the spec's words, for comparison with the query the
source builds. -/
def specPageFilter (category : Option String) (p : Product) : Bool :=
  (p.is_active == true) &&
    (match category with
     | some c => if c == "" then true else p.category == some c
     | none => true)

/-- The product list carried by a successful list-query result. -/
def okList : Except String (List Product) → List Product
  | .ok l => l
  | .error _ => []

/-- The product list carried by a successful paginated result. -/
def okPagList : Except String PaginatedProducts → List Product
  | .ok pr => pr.products
  | .error _ => []

/-- The total carried by a successful paginated result (`-1` on error). -/
def pagTotal : Except String PaginatedProducts → Int
  | .ok pr => pr.total
  | .error _ => -1

/-- A concrete catalog row used in witnesses and counterexamples. -/
def mkProduct (i : Nat) : Product :=
  { id := toString i, name := toString i, description := none,
    price := (i : Int), category := none, stock_quantity := 1,
    is_active := true, created_at := toString (9000 - i),
    updated_at := toString (9000 - i) }

/-- A 30-row catalog. -/
def demoDb : List Product := (List.range 30).map mkProduct

/-- A listing controller instantiated with the first 12 of 30 products,
`initialLimit = 12`, no category, newest-first — the scenario of the
spec's testable property 7. -/
def demoInit : ListingState :=
  initState ((List.range 12).map mkProduct) 30 none "newest" 12

/-! ## Shape of the paginated query -/

lemma pagQ_filters (category : Option String) (sortBy : String) (l o : Int) :
    (getProductsWithPaginationQ category sortBy l o).filters =
      Filter.isActiveEq true ::
        (if strTruthy category then [Filter.categoryEq (category.getD "")]
         else []) := by
  unfold getProductsWithPaginationQ
  by_cases h : strTruthy category <;>
    simp only [h, if_true, if_false] <;>
    split <;>
    simp [Query.new, Query.eq, Query.order, Query.range]

lemma pagQ_rangeSpec (category : Option String) (sortBy : String) (l o : Int) :
    (getProductsWithPaginationQ category sortBy l o).rangeSpec =
      some (o, o + l - 1) := by
  unfold getProductsWithPaginationQ
  by_cases h : strTruthy category <;>
    simp only [h, if_true, if_false] <;>
    split <;>
    simp [Query.new, Query.eq, Query.order, Query.range]

lemma pagQ_limitSpec (category : Option String) (sortBy : String) (l o : Int) :
    (getProductsWithPaginationQ category sortBy l o).limitSpec = none := by
  unfold getProductsWithPaginationQ
  by_cases h : strTruthy category <;>
    simp only [h, if_true, if_false] <;>
    split <;>
    simp [Query.new, Query.eq, Query.order, Query.range]

lemma pagQ_countExact (category : Option String) (sortBy : String) (l o : Int) :
    (getProductsWithPaginationQ category sortBy l o).countExact = true := by
  unfold getProductsWithPaginationQ
  by_cases h : strTruthy category <;>
    simp only [h, if_true, if_false] <;>
    split <;>
    simp [Query.new, Query.eq, Query.order, Query.range]

/-- The WHERE clause the paginated query builds coincides pointwise with
the spec's description of the filter. -/
lemma matchesAll_pagQ (category : Option String) (sortBy : String)
    (l o : Int) (p : Product) :
    matchesAll (getProductsWithPaginationQ category sortBy l o).filters p =
      specPageFilter category p := by
  rw [pagQ_filters]
  cases category with
  | none => simp [matchesAll, specPageFilter, strTruthy, applyFilter]
  | some c =>
      by_cases hc : c == "" <;>
        simp_all [matchesAll, specPageFilter, strTruthy, applyFilter]

/-- Evaluation of the paginated query against the honest backend. -/
lemma pagination_eval (db : List Product) (category : Option String)
    (sortBy : String) (limit offset : Int) :
    getProductsWithPagination (evalQuery db) category sortBy limit offset =
      .ok { products :=
              applyRange offset (offset + limit - 1)
                (sortRows (getProductsWithPaginationQ category sortBy limit offset).ordering
                  (db.filter (specPageFilter category))),
            total := ((db.filter (specPageFilter category)).length : Int) } := by
  have hf : db.filter
      (matchesAll (getProductsWithPaginationQ category sortBy limit offset).filters) =
      db.filter (specPageFilter category) :=
    List.filter_congr (fun p _ => matchesAll_pagQ category sortBy limit offset p)
  unfold getProductsWithPagination evalQuery
  rw [pagQ_rangeSpec, pagQ_limitSpec, pagQ_countExact, hf]
  simp

/-! ## Membership lemmas: query results only contain filtered rows -/

lemma mem_of_mem_insertLe (le : Product → Product → Bool) (p x : Product)
    (l : List Product) (h : x ∈ insertLe le p l) : x = p ∨ x ∈ l := by
  induction l with
  | nil => simpa [insertLe] using h
  | cons q qs ih =>
      unfold insertLe at h
      split at h
      · rcases List.mem_cons.mp h with h1 | h2
        · exact Or.inl h1
        · exact Or.inr h2
      · rcases List.mem_cons.mp h with h1 | h2
        · exact Or.inr (by simp [h1])
        · rcases ih h2 with h3 | h4
          · exact Or.inl h3
          · exact Or.inr (List.mem_cons_of_mem _ h4)

lemma mem_of_mem_sortByLe (le : Product → Product → Bool) (x : Product)
    (l : List Product) (h : x ∈ sortByLe le l) : x ∈ l := by
  induction l with
  | nil => simp [sortByLe] at h
  | cons q qs ih =>
      have hq : sortByLe le (q :: qs) = insertLe le q (sortByLe le qs) := rfl
      rw [hq] at h
      rcases mem_of_mem_insertLe le q x _ h with h1 | h2
      · simp [h1]
      · exact List.mem_cons_of_mem _ (ih h2)

lemma mem_of_mem_sortRows (ordering : Option (String × Bool)) (x : Product)
    (rows : List Product) (h : x ∈ sortRows ordering rows) : x ∈ rows := by
  cases ordering with
  | none => simpa [sortRows] using h
  | some cb =>
      obtain ⟨column, ascending⟩ := cb
      exact mem_of_mem_sortByLe _ _ _ (by simpa [sortRows] using h)

lemma mem_of_mem_applyRange (a b : Int) (x : Product) (l : List Product)
    (h : x ∈ applyRange a b l) : x ∈ l := by
  unfold applyRange at h
  exact List.drop_subset _ _ (List.take_subset _ _ h)

lemma isActive_of_matchesAll (fs : List Filter) (p : Product)
    (hmem : Filter.isActiveEq true ∈ fs) (h : matchesAll fs p = true) :
    p.is_active = true := by
  have := (List.all_eq_true.mp h) _ hmem
  simpa [applyFilter] using this

/-- Every row in an honest response passes the query's WHERE clause. -/
lemma matchesAll_of_mem_evalQuery (db : List Product) (q : Query) (x : Product)
    (hx : x ∈ (evalQuery db q).data.getD []) : matchesAll q.filters x = true := by
  obtain ⟨tb, fs, od, rg, lm, ce⟩ := q
  unfold evalQuery at hx
  simp only [Option.getD_some] at hx
  have hx1 : x ∈ db.filter (matchesAll fs) := by
    have hx2 : x ∈ (match rg with
        | some (a, b) => applyRange a b (sortRows od (db.filter (matchesAll fs)))
        | none => sortRows od (db.filter (matchesAll fs))) := by
      cases lm with
      | none => simpa using hx
      | some n => exact List.take_subset _ _ (by simpa using hx)
    have hx3 : x ∈ sortRows od (db.filter (matchesAll fs)) := by
      cases rg with
      | none => simpa using hx2
      | some ab =>
          obtain ⟨a, b⟩ := ab
          exact mem_of_mem_applyRange a b x _ (by simpa using hx2)
    exact mem_of_mem_sortRows od x _ hx3
  exact (List.mem_filter.mp hx1).2

lemma isActive_of_mem_evalQuery (db : List Product) (q : Query)
    (hq : Filter.isActiveEq true ∈ q.filters) (p : Product)
    (hp : p ∈ (evalQuery db q).data.getD []) : p.is_active = true :=
  isActive_of_matchesAll q.filters p hq (matchesAll_of_mem_evalQuery db q p hp)

/-! ## Claim C1 — shape of the loadMore page request -/

/-- Claim C1, counterexample: a controller instantiated with 12 products,
`total = 30` and `initialLimit = 12` issues, on its first `loadMore()`, a
request with `offset = 12` but `limit = 24` (= `limit + 12`), not the fixed
increment 12 the claim states. -/
theorem loadMore_fixed_increment_counterexample :
    (clickLoadMore demoInit).2 =
      some { category := none, sortBy := "newest", limit := 24, offset := 12 } ∧
    (clickLoadMore demoInit).2 ≠
      some { category := none, sortBy := "newest", limit := 12, offset := 12 } := by
  refine ⟨by decide, by decide⟩

/-- Claim C1 (amended): every `loadMore()` request uses
`offset = len(items)` and `limit = (current limit state) + 12`, the limit
state starting at `initialLimit` and growing by 12 per successful load.
Concretely, from 12 of 30 products with `initialLimit = 12`, the first
`loadMore()` issues `offset = 12, limit = 24`; against the honest backend
this returns the remaining 18 rows, so on success `items.length = 30` and
`hasMore() = false`, and a further `loadMore()` is a no-op that issues no
request. -/
theorem loadMore_request_shape :
    (∀ s : ListingState, s.pending = false → hasMore s = true →
      (clickLoadMore s).2 =
        some { category := s.category, sortBy := s.sortBy,
               limit := s.limit + 12, offset := s.products.length } ∧
      (clickLoadMore s).1 = { s with pending := true }) ∧
    ((clickLoadMore demoInit).2 =
        some { category := none, sortBy := "newest", limit := 24, offset := 12 } ∧
     (okPagList (getProductsWithPagination (evalQuery demoDb) none "newest" 24 12)).length = 18 ∧
     ((resolveLoad (clickLoadMore demoInit).1
        (.success (okPagList
          (getProductsWithPagination (evalQuery demoDb) none "newest" 24 12)))).1.products.length = 30 ∧
      hasMore (resolveLoad (clickLoadMore demoInit).1
        (.success (okPagList
          (getProductsWithPagination (evalQuery demoDb) none "newest" 24 12)))).1 = false ∧
      (clickLoadMore (resolveLoad (clickLoadMore demoInit).1
        (.success (okPagList
          (getProductsWithPagination (evalQuery demoDb) none "newest" 24 12)))).1).2 = none)) := by
  constructor
  · intro s hp hm
    simp [clickLoadMore, loadMoreRequest, hp, hm]
  · refine ⟨by decide, by decide, by decide, by decide, by decide⟩

/-- Claim C1 witness: the general request-shape part instantiated at the
concrete controller. -/
theorem loadMore_request_shape_witness :
    (clickLoadMore demoInit).2 =
      some { category := demoInit.category, sortBy := demoInit.sortBy,
             limit := demoInit.limit + 12, offset := demoInit.products.length } :=
  (loadMore_request_shape.1 demoInit rfl (by decide)).1

/-! ## Claim C2 — filter, slice and total of the paginated query -/

/-- Claim C2: every `fetchPage` call against the honest backend filters by
`isActive == true` plus category equality exactly when `category` is
provided and non-empty (`specPageFilter`), returns the inclusive row range
`[offset, offset + limit - 1]` of the filtered-then-sorted rows, and
returns as `total` the count of all filtered rows — computed before the
range and therefore independent of `limit` and `offset`. -/
theorem pagination_contract (db : List Product) (category : Option String)
    (sortBy : String) (limit offset : Int) :
    getProductsWithPagination (evalQuery db) category sortBy limit offset =
      .ok { products :=
              applyRange offset (offset + limit - 1)
                (sortRows (getProductsWithPaginationQ category sortBy limit offset).ordering
                  (db.filter (specPageFilter category))),
            total := ((db.filter (specPageFilter category)).length : Int) } ∧
    (∀ limit2 offset2 : Int,
      pagTotal (getProductsWithPagination (evalQuery db) category sortBy limit2 offset2) =
        ((db.filter (specPageFilter category)).length : Int)) := by
  refine ⟨pagination_eval db category sortBy limit offset, fun l2 o2 => ?_⟩
  rw [pagination_eval]
  rfl

/-! ## Claim C3 — getFeaturedProducts never propagates an error -/

/-- Claim C3: `getFeaturedProducts` never propagates an error: for every
limit and backend it produces a success value, and specifically the empty
list when the configuration is missing, when the backend responds with an
error, or when the awaited call throws. -/
theorem featured_never_throws (env : Env) (backend : Query → QueryOutcome)
    (limit : Int) :
    (∃ l, getFeaturedProducts env backend limit = .ok l) ∧
    (strTruthy env.supabaseUrl = false ∨ strTruthy env.supabaseKey = false →
      getFeaturedProducts env backend limit = .ok []) ∧
    (∀ m, backend (getFeaturedProductsQ limit) = .thrown m →
      getFeaturedProducts env backend limit = .ok []) ∧
    (∀ r e, backend (getFeaturedProductsQ limit) = .response r →
      r.error = some e → getFeaturedProducts env backend limit = .ok []) := by
  unfold getFeaturedProducts
  refine ⟨?_, ?_, ?_, ?_⟩
  · split
    · exact ⟨[], rfl⟩
    · split
      · exact ⟨[], rfl⟩
      · split
        · exact ⟨[], rfl⟩
        · exact ⟨_, rfl⟩
  · intro h
    rcases h with h | h <;> simp [h]
  · intro m hm
    split
    · rfl
    · rw [hm]
  · intro r e hr he
    split
    · rfl
    · rw [hr]
      simp [he]

/-- Claim C3 witness: a thrown network failure under a configured
environment yields the empty list. -/
theorem featured_never_throws_witness :
    getFeaturedProducts { supabaseUrl := some "u", supabaseKey := some "k" }
      (fun _ => .thrown "network down") 6 = .ok [] :=
  (featured_never_throws { supabaseUrl := some "u", supabaseKey := some "k" }
      (fun _ => .thrown "network down") 6).2.2.1 "network down" rfl

/-! ## Claim C4 — route parameter defaulting -/

/-- Claim C4, counterexample: a non-numeric `limit` or `offset` query
parameter parses to `NaN` (`none`) — it does not default to 12 or 0 as the
claim states. -/
theorem route_nonNumeric_counterexample :
    routeLimit (some "abc") = none ∧
    routeOffset (some "xyz") = none ∧
    (none : Option Int) ≠ some 12 ∧ (none : Option Int) ≠ some 0 := by
  refine ⟨by decide, by decide, by decide, by decide⟩

/-- Claim C4 (amended): `limit` and `offset` default to 12 and 0 when the
query parameter is absent or empty; any other value is handed to
`parseInt(·, 10)` (optional sign, maximal leading digit run), so a numeric
prefix parses in base 10 and a non-numeric value yields `NaN` (`none`)
rather than the default. -/
theorem route_param_parsing :
    routeLimit none = some 12 ∧ routeOffset none = some 0 ∧
    routeLimit (some "") = some 12 ∧ routeOffset (some "") = some 0 ∧
    (∀ s, s ≠ "" → routeLimit (some s) = jsParseInt s) ∧
    (∀ s, s ≠ "" → routeOffset (some s) = jsParseInt s) ∧
    routeLimit (some "24") = some 24 ∧ routeOffset (some "7") = some 7 ∧
    routeLimit (some "abc") = none := by
  refine ⟨by decide, by decide, by decide, by decide, ?_, ?_, by decide,
    by decide, by decide⟩
  · intro s h
    simp [routeLimit, getQueryDefault, h]
  · intro s h
    simp [routeOffset, getQueryDefault, h]

/-- Claim C4 witness: a non-empty parameter goes through `parseInt`. -/
theorem route_param_parsing_witness :
    routeLimit (some "24") = jsParseInt "24" :=
  route_param_parsing.2.2.2.2.1 "24" (by decide)

/-! ## Claim C5 — the sort mapping -/

/-- Claim C5: the `sortBy` switch maps `price_asc` to `(price, asc)`,
`price_desc` to `(price, desc)`, `newest` to `(created_at, desc)`,
`oldest` to `(created_at, asc)`, `name_asc` to `(name, asc)`; and every
string outside the five-member enumeration builds exactly the same query
as `"newest"`. -/
theorem sort_mapping :
    (∀ (c : Option String) (l o : Int),
      (getProductsWithPaginationQ c "price_asc" l o).ordering = some ("price", true) ∧
      (getProductsWithPaginationQ c "price_desc" l o).ordering = some ("price", false) ∧
      (getProductsWithPaginationQ c "newest" l o).ordering = some ("created_at", false) ∧
      (getProductsWithPaginationQ c "oldest" l o).ordering = some ("created_at", true) ∧
      (getProductsWithPaginationQ c "name_asc" l o).ordering = some ("name", true)) ∧
    (∀ (c : Option String) (s : String) (l o : Int),
      s ≠ "price_asc" → s ≠ "price_desc" → s ≠ "newest" → s ≠ "oldest" →
      s ≠ "name_asc" →
      getProductsWithPaginationQ c s l o = getProductsWithPaginationQ c "newest" l o) := by
  constructor
  · intro c l o
    refine ⟨?_, ?_, ?_, ?_, ?_⟩ <;>
      simp [getProductsWithPaginationQ, Query.new, Query.eq, Query.order, Query.range]
  · intro c s l o h1 h2 h3 h4 h5
    unfold getProductsWithPaginationQ
    split <;> simp_all

/-- Claim C5 witness: an unrecognized sort value builds the same query as
`"newest"`. -/
theorem sort_mapping_witness :
    getProductsWithPaginationQ none "banana" 12 0 =
      getProductsWithPaginationQ none "newest" 12 0 :=
  sort_mapping.2 none "banana" 12 0 (by decide) (by decide) (by decide)
    (by decide) (by decide)

/-! ## Claim C6 — null versus error in getProductById -/

/-- Claim C6: under the single-row contract (a success response carries a
row), `getProductById` returns `null` exactly when the backend reports the
`PGRST116` no-row signal, and throws the data-access error exactly when the
backend reports any other error; the two outcomes are never conflated. -/
theorem getProductById_notFound_contract (backendS : Query → SingleResponse)
    (id : String)
    (hwf : (backendS (getProductByIdQ id)).error = none →
           (backendS (getProductByIdQ id)).data.isSome = true) :
    (getProductById backendS id = .ok none ↔
      (backendS (getProductByIdQ id)).error.map SupaError.code = some "PGRST116") ∧
    (getProductById backendS id = .error errMsg ↔
      ∃ e, (backendS (getProductByIdQ id)).error = some e ∧ e.code ≠ "PGRST116") := by
  unfold getProductById
  rcases he : (backendS (getProductByIdQ id)).error with - | e
  · rcases hdata : (backendS (getProductByIdQ id)).data with - | p
    · have := hwf he
      rw [hdata] at this
      simp at this
    · simp [he, hdata]
  · by_cases hc : e.code = "PGRST116" <;> simp [he, hc]

/-- Claim C6 witness: a `PGRST116` error response produces `null`. -/
theorem getProductById_notFound_contract_witness :
    getProductById
        (fun _ => { data := none,
                    error := some { code := "PGRST116", message := "no rows" } })
        "missing-id" = .ok none :=
  ((getProductById_notFound_contract
        (fun _ => { data := none,
                    error := some { code := "PGRST116", message := "no rows" } })
        "missing-id" (by intro h; exact absurd h (by simp))).1).mpr (by simp)

/-! ## Claim C7 — every read path filters on isActive -/

/-- Claim C7: each of the five read operations builds a query containing
the `is_active = true` filter, and under the honest backend semantics none
of them ever returns an inactive product. -/
theorem active_only_reads :
    (Filter.isActiveEq true ∈ getProductsQ.filters) ∧
    (∀ c, Filter.isActiveEq true ∈ (getProductsByCategoryQ c).filters) ∧
    (∀ l, Filter.isActiveEq true ∈ (getFeaturedProductsQ l).filters) ∧
    (∀ c s l o, Filter.isActiveEq true ∈ (getProductsWithPaginationQ c s l o).filters) ∧
    (∀ i, Filter.isActiveEq true ∈ (getProductByIdQ i).filters) ∧
    (∀ db p, p ∈ okList (getProducts (evalQuery db)) → p.is_active = true) ∧
    (∀ db c p, p ∈ okList (getProductsByCategory (evalQuery db) c) → p.is_active = true) ∧
    (∀ db env l p,
      p ∈ okList (getFeaturedProducts env (fun q => .response (evalQuery db q)) l) →
      p.is_active = true) ∧
    (∀ db c s l o p,
      p ∈ okPagList (getProductsWithPagination (evalQuery db) c s l o) →
      p.is_active = true) ∧
    (∀ db i p, getProductById (evalSingle db) i = .ok (some p) → p.is_active = true) := by
  refine ⟨?_, ?_, ?_, ?_, ?_, ?_, ?_, ?_, ?_, ?_⟩
  · decide
  · intro c
    simp [getProductsByCategoryQ, Query.new, Query.eq, Query.order]
  · intro l
    simp [getFeaturedProductsQ, Query.new, Query.eq, Query.order, Query.limit]
  · intro c s l o
    rw [pagQ_filters]
    exact List.mem_cons_self _ _
  · intro i
    simp [getProductByIdQ, Query.new, Query.eq]
  · intro db p hp
    exact isActive_of_mem_evalQuery db getProductsQ (by decide) p hp
  · intro db c p hp
    refine isActive_of_mem_evalQuery db (getProductsByCategoryQ c) ?_ p hp
    simp [getProductsByCategoryQ, Query.new, Query.eq, Query.order]
  · intro db env l p hp
    unfold getFeaturedProducts at hp
    split at hp
    · simp [okList] at hp
    · refine isActive_of_mem_evalQuery db (getFeaturedProductsQ l) ?_ p ?_
      · simp [getFeaturedProductsQ, Query.new, Query.eq, Query.order, Query.limit]
      · simpa [okList] using hp
  · intro db c s l o p hp
    refine isActive_of_mem_evalQuery db (getProductsWithPaginationQ c s l o) ?_ p ?_
    · rw [pagQ_filters]
      exact List.mem_cons_self _ _
    · rcases he : (evalQuery db (getProductsWithPaginationQ c s l o)).error with - | e
      · simp only [getProductsWithPagination, he] at hp
        simpa [okPagList] using hp
      · simp only [getProductsWithPagination, he] at hp
        simp [okPagList] at hp
  · intro db i p hp
    unfold getProductById at hp
    rcases hf : db.filter (matchesAll (getProductByIdQ i).filters)
        with - | ⟨q1, l1⟩
    · have hev : evalSingle db (getProductByIdQ i) =
          { data := none, error := some pgrst116 } := by
        unfold evalSingle
        rw [hf]
      rw [hev] at hp
      simp [pgrst116] at hp
    · rcases l1 with - | ⟨q2, l2⟩
      · have hev : evalSingle db (getProductByIdQ i) =
            { data := some q1, error := none } := by
          unfold evalSingle
          rw [hf]
        rw [hev] at hp
        simp at hp
        have hq1 : q1 ∈ db.filter (matchesAll (getProductByIdQ i).filters) := by
          rw [hf]
          exact List.mem_singleton_self _
        have hact := isActive_of_matchesAll _ q1
          (by simp [getProductByIdQ, Query.new, Query.eq]) (List.mem_filter.mp hq1).2
        rw [← hp]
        exact hact
      · have hev : evalSingle db (getProductByIdQ i) =
            { data := none, error := some pgrst116 } := by
          unfold evalSingle
          rw [hf]
        rw [hev] at hp
        simp [pgrst116] at hp

/-- Claim C7 witness: the `getProducts` conjunct instantiated at a concrete
catalog and row. -/
theorem active_only_reads_witness :
    mkProduct 3 ∈ okList (getProducts (evalQuery demoDb)) →
      (mkProduct 3).is_active = true :=
  active_only_reads.2.2.2.2.2.1 demoDb (mkProduct 3)

/-! ## Claim C8 — at most one request in flight -/

/-- Claim C8: a `loadMore()` click while `pending` holds, or while
`hasMore()` is false, is a no-op that leaves the state unchanged and issues
no request; from an idle state with more to load, a click issues a request
and an immediately following click issues none — so two rapid overlapping
invocations produce exactly one in-flight request. -/
theorem loadMore_single_flight :
    (∀ s : ListingState, s.pending = true ∨ hasMore s = false →
      clickLoadMore s = (s, none)) ∧
    (∀ s : ListingState, s.pending = false → hasMore s = true →
      (clickLoadMore s).2.isSome = true ∧
      (clickLoadMore (clickLoadMore s).1).2 = none) := by
  constructor
  · intro s h
    rcases h with h | h <;> simp [clickLoadMore, h]
  · intro s hp hm
    constructor
    · simp [clickLoadMore, hp, hm]
    · simp [clickLoadMore, hp, hm]

/-- Claim C8 witness: the double-click scenario at the concrete
controller. -/
theorem loadMore_single_flight_witness :
    (clickLoadMore demoInit).2.isSome = true ∧
    (clickLoadMore (clickLoadMore demoInit).1).2 = none :=
  loadMore_single_flight.2 demoInit rfl (by decide)

/-! ## Claim C9 — failure leaves the controller retryable -/

/-- Claim C9: a failed `loadMore()` leaves `items` and `total` unchanged,
surfaces a visible notification, and clears `pending`; afterwards, whenever
`hasMore()` holds, a retry click issues a page request again. -/
theorem loadMore_failure_preserves_state (s : ListingState) :
    (resolveLoad s .failure).1.products = s.products ∧
    (resolveLoad s .failure).1.total = s.total ∧
    (resolveLoad s .failure).1.pending = false ∧
    (resolveLoad s .failure).2 = true ∧
    (hasMore (resolveLoad s .failure).1 = true →
      (clickLoadMore (resolveLoad s .failure).1).2 =
        some (loadMoreRequest (resolveLoad s .failure).1)) := by
  refine ⟨rfl, rfl, rfl, rfl, ?_⟩
  intro h
  simp [clickLoadMore, resolveLoad, h]
  simp [resolveLoad] at h
  simp [clickLoadMore, h]

/-- Claim C9 witness: after a failure during a pending load, the concrete
controller can retry. -/
theorem loadMore_failure_preserves_state_witness :
    (clickLoadMore (resolveLoad { demoInit with pending := true } .failure).1).2 =
      some (loadMoreRequest (resolveLoad { demoInit with pending := true } .failure).1) :=
  (loadMore_failure_preserves_state { demoInit with pending := true }).2.2.2.2 (by decide)

/-! ## Claim C10 — null payloads are coerced on success -/

/-- Claim C10: a success response whose `data` and `count` are null is
coerced: `getProductsWithPagination` returns an empty products array with
`total = 0`, and `getProducts`, `getProductsByCategory` and
`getFeaturedProducts` return the empty array — no success path yields null
in place of a list. -/
theorem null_payload_coercion (resp : SupaResponse) (hne : resp.error = none)
    (hd : resp.data = none) (hc : resp.count = none)
    (category : Option String) (sortBy : String) (limit offset : Int)
    (cat : String) (lim : Int) :
    getProductsWithPagination (fun _ => resp) category sortBy limit offset =
      .ok { products := [], total := 0 } ∧
    getProducts (fun _ => resp) = .ok [] ∧
    getProductsByCategory (fun _ => resp) cat = .ok [] ∧
    getFeaturedProducts { supabaseUrl := some "url", supabaseKey := some "key" }
      (fun _ => .response resp) lim = .ok [] := by
  obtain ⟨d, e, c⟩ := resp
  simp only at hne hd hc
  subst hne; subst hd; subst hc
  refine ⟨rfl, rfl, rfl, rfl⟩

/-- Claim C10 witness: the all-null success response. -/
theorem null_payload_coercion_witness :
    getProductsWithPagination
        (fun _ => { data := none, error := none, count := none }) none "newest" 12 0 =
      .ok { products := [], total := 0 } :=
  (null_payload_coercion { data := none, error := none, count := none }
      rfl rfl rfl none "newest" 12 0 "shower" 6).1

end Storefront
